import Mathlib

/-!
Verification of the order-submission workflow in
`src/server/generate_signature.py` and the signing smoke-test
`src/server/test_signing.py`.

The scripts are thin Python glue over an external SDK.  We shallowly embed
the script-owned logic: Python dictionaries that carry dynamic payloads are
embedded as association lists over a small value type `PyVal`; numeric
amounts (parsed with `float(...)` in the script) are embedded as rationals;
external calls (`info.user_state`, `info.meta`, `exchange.order`,
`Account.from_key`) are embedded as explicit inputs to the workflow
function, so the workflow is a pure function from the responses of those
calls to the printed trace and the abort status of the run.  Decorative
banner prints are elided from the trace; every line the claims speak about
is kept.
-/

namespace BloomTest

/-- A Python value as used in the order-type dictionaries of
`generate_signature.py`: strings and string-keyed dictionaries. -/
inductive PyVal where
  | str (s : String)
  | dict (entries : List (String × PyVal))

/-- Lookup `d.get(key)` on an association-list dictionary: the first binding
wins, `None` when absent. -/
def lookupEntry : List (String × PyVal) → String → Option PyVal
  | [], _ => none
  | (k, v) :: rest, key => if k = key then some v else lookupEntry rest key

/-- Python `dict.get(key)` (default `None`); a `.get` on a string has no
dictionary entries, which never arises for the configured order types. -/
def pyGet : PyVal → String → Option PyVal
  | .dict es, k => lookupEntry es k
  | .str _, _ => none

/-- Python truthiness of a value: the empty string and the empty dict are
falsy, everything else is truthy. -/
def pyTruthy : PyVal → Bool
  | .str s => s != ""
  | .dict [] => false
  | .dict (_ :: _) => true

/-- Python `v == "t"` where `v` is `dict.get("tif")`: only a string equal to
`t` compares equal; `None` and dictionaries do not. -/
def tifIs (v : Option PyVal) (t : String) : Bool :=
  match v with
  | some (.str s) => s == t
  | _ => false

/-- The order-type classification step of `main`
(`generate_signature.py:153-163`): the chain of
`ORDER_CONFIG["order_type"].get("limit", {}).get("tif") == ...` tests
followed by `elif ORDER_CONFIG["order_type"].get("market"):`.
Returns the printed label, or `none` when no branch fires. -/
def orderTypeLabel (ot : List (String × PyVal)) : Option String :=
  let tif := pyGet ((lookupEntry ot "limit").getD (.dict [])) "tif"
  if tifIs tif "Ioc" then
    some "→ IOC: Executes immediately or cancels (requires less margin)"
  else if tifIs tif "Gtc" then
    some "→ GTC: Stays on order book until filled or canceled (requires more margin)"
  else if tifIs tif "Alo" then
    some "→ ALO: Post Only - adds liquidity, gets maker rebate (requires less margin)"
  else if ((lookupEntry ot "market").map pyTruthy).getD false then
    some "→ Market: Executes at best available price immediately"
  else none

/-- The configured variant `{"limit": {"tif": "Ioc"}}`. -/
def limitIocType : List (String × PyVal) := [("limit", .dict [("tif", .str "Ioc")])]

/-- The configured variant `{"limit": {"tif": "Gtc"}}`. -/
def limitGtcType : List (String × PyVal) := [("limit", .dict [("tif", .str "Gtc")])]

/-- The configured variant `{"limit": {"tif": "Alo"}}`. -/
def limitAloType : List (String × PyVal) := [("limit", .dict [("tif", .str "Alo")])]

/-- The configured variant `{"market": {}}` (the value is an empty dict). -/
def marketType : List (String × PyVal) := [("market", .dict [])]

/-- One entry of the instrument universe returned by `info.meta()`:
only its `name` field is read by the script. -/
structure Asset where
  name : String
deriving DecidableEq, Repr

/-- The error kinds of asset resolution, as the spec names them.  Both are
`ValueError`s in the script, distinguished by their messages:
`configurationError` is "Failed to get meta from HyperLiquid",
`assetNotFound` is "Asset ... not found in universe". -/
inductive ResolveError where
  | configurationError
  | assetNotFound
deriving DecidableEq, Repr

/-- The loop `for idx, asset in enumerate(meta["universe"]): if
asset["name"] == ORDER_CONFIG["coin"]: asset_id = idx; break`
(`generate_signature.py:126-130`), with `idx` as the accumulator. -/
def findAssetId : List Asset → String → Nat → Option Nat
  | [], _, _ => none
  | a :: rest, coin, idx =>
      if a.name = coin then some idx else findAssetId rest coin (idx + 1)

/-- Asset resolution (`generate_signature.py:122-133`).  The `meta` argument
is the response of `info.meta()`: `none` embeds a falsy response (`None` or
an empty dict), at which `if not meta` raises; `some u` embeds a truthy
response with `meta["universe"] = u` (truthy even when `u` is empty, since
the dict has a key).  After the scan, `asset_id is None` raises the
not-found error. -/
def resolveAsset (meta : Option (List Asset)) (coin : String) :
    Except ResolveError Nat :=
  match meta with
  | none => .error .configurationError
  | some univ =>
      match findAssetId univ coin 0 with
      | some idx => .ok idx
      | none => .error .assetNotFound

/-- A character the script's private keys are made of (`0-9a-fA-F`). -/
def isHexChar (c : Char) : Bool :=
  c.isDigit || ('a' ≤ c && c ≤ 'f') || ('A' ≤ c && c ≤ 'F')

/-- The strip step `if private_key.startswith("0x"): private_key =
private_key[2:]` (`generate_signature.py:81-82`), on the key as a character
list. -/
def stripHexPrefix (k : List Char) : List Char :=
  if k.take 2 = ['0', 'x'] then k.drop 2 else k

/-- Credential loading `wallet = Account.from_key("0x" + private_key)`
(`generate_signature.py:77-85`): normalize the key, re-prefix it, and hand
it to the external derivation capability `derive` (the embedding of
`Account.from_key`, an opaque function of its input string). -/
def loadWallet (derive : List Char → String) (k : List Char) : String :=
  derive ('0' :: 'x' :: stripHexPrefix k)

/-- A dictionary of numeric fields, embedding the margin-summary objects of
`info.user_state`: the script reads their values through
`float(d.get(key, 0))`, so the values are embedded as rationals. -/
abbrev PyNumDict := List (String × ℚ)

/-- Lookup `d.get(key)` on a numeric dictionary: the first binding wins. -/
def lookupQ : PyNumDict → String → Option ℚ
  | [], _ => none
  | (k, v) :: rest, key => if k = key then some v else lookupQ rest key

/-- Read `float(d.get(key, 0))` on a numeric dictionary. -/
def dictGetQ (d : PyNumDict) (key : String) : ℚ :=
  (lookupQ d key).getD 0

/-- The response of `info.user_state(wallet_address)`, restricted to the two
fields the script reads.  `none` embeds an absent key (the script defaults
`marginSummary` to `{}` and `crossMarginSummary` to `None`-like absence via
`.get`). -/
structure UserState where
  marginSummary : Option PyNumDict
  crossMarginSummary : Option PyNumDict

/-- The three numbers the Account Inspector prints
(`generate_signature.py:98-106`). -/
structure AccountReport where
  accountValue : ℚ
  marginUsed : ℚ
  freeCollateral : ℚ
deriving DecidableEq, Repr

/-- The steps `margin_summary = user_state.get("marginSummary", {})` followed by
`float(margin_summary.get("accountValue", 0))`,
`float(margin_summary.get("totalMarginUsed", 0))` and
`free_collateral = account_value - margin_used`
(`generate_signature.py:98-102`). -/
def inspectAccount (us : UserState) : AccountReport :=
  let ms := us.marginSummary.getD []
  let av := dictGetQ ms "accountValue"
  let mu := dictGetQ ms "totalMarginUsed"
  ⟨av, mu, av - mu⟩

/-- The steps `cross_margin = user_state.get("crossMarginSummary", {})` followed by
`if cross_margin:` (`generate_signature.py:108-114`): an absent key defaults
to the empty dict, and Python truthiness of a dict is non-emptiness. -/
def marginModeLine (us : UserState) : String :=
  let cross := us.crossMarginSummary.getD []
  match cross with
  | [] => "Margin Mode: ISOLATED MARGIN (or no positions)"
  | _ :: _ => "Margin Mode: CROSS MARGIN"

/-- One entry of `result["response"]["data"]["statuses"]`: the script tests
`"resting" in status`, `"filled" in status`, `"error" in status`
(`generate_signature.py:192-198`); `other` embeds a status dict with none of
those keys. -/
inductive StatusEntry where
  | resting (oid : Option Int)
  | filled
  | error (msg : String)
  | other
deriving DecidableEq, Repr

/-- The `response` field of the submission result: a plain error payload
string, a dict carrying `data.statuses` (`none` when `data` has no
`statuses` key, defaulted to `[]` by `.get`), or a dict without `data`. -/
inductive RespPayload where
  | msg (s : String)
  | withData (statuses : Option (List StatusEntry))
  | noData
deriving DecidableEq, Repr

/-- The response of `exchange.order(...)`, restricted to the fields read by
the script: `result.get("status")` and `result.get("response")`. -/
structure OrderResult where
  status : Option String
  response : Option RespPayload
deriving DecidableEq, Repr

/-- The rendering of `result.get("response", "Unknown error")` inside the
failure print.  Only the string payload's text matters to the claims; the
structured payloads are rendered by fixed placeholders. -/
def displayResp : Option RespPayload → String
  | none => "Unknown error"
  | some (.msg s) => s
  | some (.withData _) => "<response data>"
  | some .noData => "<response>"

/-- The per-status classification line (`generate_signature.py:192-198`):
`status["resting"].get("oid", "N/A")`, `"Filled!"`, or the error message;
a status dict with none of the three keys prints nothing. -/
def statusLine (i : Nat) : StatusEntry → Option String
  | .resting oid =>
      some ("Order " ++ toString i ++ ": Resting (Order ID: " ++
        (match oid with | some n => toString n | none => "N/A") ++ ")")
  | .filled => some ("Order " ++ toString i ++ ": Filled!")
  | .error m => some ("Order " ++ toString i ++ ": Error - " ++ m)
  | .other => none

/-- The loop `for i, status in enumerate(statuses)` over the status list, collecting
the printed classification lines. -/
def statusLines : List StatusEntry → Nat → List String
  | [], _ => []
  | e :: rest, i => (statusLine i e).toList ++ statusLines rest (i + 1)

/-- The lines printed after the submission call
(`generate_signature.py:187-204`): on `status == "ok"` the success banner
and the per-status lines (guarded by `"response" in result and "data" in
result["response"]`, with `statuses` defaulting to `[]`); otherwise the
failure banner and the returned response. -/
def submissionLines (result : OrderResult) : List String :=
  if result.status = some "ok" then
    "✅ ORDER PLACED SUCCESSFULLY!" ::
      (match result.response with
       | some (.withData (some sts)) => statusLines sts 0
       | some (.withData none) => []
       | _ => [])
  else
    ["❌ ORDER FAILED", "Response: " ++ displayResp result.response]

/-- The warning printed by the `except` branch of the account-inspection
step (`generate_signature.py:116-118`). -/
def warnLine (e : String) : String := "⚠️  Could not check account state: " ++ e

/-- The lines of the account-inspection step (`generate_signature.py:96-118`):
the `try` branch prints the three amounts and the margin mode, the `except`
branch prints the warning and lets the run continue. -/
def inspectionLines : Except String UserState → List String
  | .error e => [warnLine e]
  | .ok us =>
      let r := inspectAccount us
      ["Account Value: $" ++ toString r.accountValue,
       "Margin Used: $" ++ toString r.marginUsed,
       "Free Collateral: $" ++ toString r.freeCollateral,
       marginModeLine us]

/-- The outcome of a run of `main` after the credential step: the printed
trace (decorative banners elided) and, when a `ValueError` aborts the run,
its message.  `raised = none` is the exit-code-zero completion. -/
structure RunResult where
  trace : List String
  raised : Option String
deriving DecidableEq, Repr

/-- The body of `main` from the account-inspection step onward
(`generate_signature.py:96-204`), as a pure function of the external
responses: `inspection` is the outcome of `info.user_state` (an exception or
a state), `meta` the response of `info.meta()`, `orderType` the configured
`ORDER_CONFIG["order_type"]`, and `result` the response of
`exchange.order(...)`.  A resolution error raises and aborts; everything
after resolution completes with exit code zero. -/
def mainRun (inspection : Except String UserState) (meta : Option (List Asset))
    (coin : String) (orderType : List (String × PyVal))
    (result : OrderResult) : RunResult :=
  let pre := inspectionLines inspection
  match resolveAsset meta coin with
  | .error .configurationError => ⟨pre, some "Failed to get meta from HyperLiquid"⟩
  | .error .assetNotFound => ⟨pre, some ("Asset " ++ coin ++ " not found in universe")⟩
  | .ok assetId =>
      ⟨pre ++ ("Asset ID: " ++ toString assetId) ::
        ((orderTypeLabel orderType).toList ++ submissionLines result), none⟩

/-! ### Helper lemmas -/

/-- The scanning loop finds nothing exactly when no entry's name matches. -/
theorem findAssetId_eq_none (u : List Asset) (coin : String) (k : Nat) :
    findAssetId u coin k = none ↔ ∀ a ∈ u, a.name ≠ coin := by
  induction u generalizing k with
  | nil => simp [findAssetId]
  | cons a rest ih =>
      by_cases h : a.name = coin
      · simp [findAssetId, h]
      · simp [findAssetId, h, ih]

/-- When a match exists, the scanning loop returns the accumulator plus the
length of the non-matching prefix before the first match. -/
theorem findAssetId_first (u : List Asset) (coin : String) (k : Nat)
    (h : ∃ a ∈ u, a.name = coin) :
    ∃ pre a post, u = pre ++ a :: post ∧ a.name = coin ∧
      (∀ b ∈ pre, b.name ≠ coin) ∧
      findAssetId u coin k = some (k + pre.length) := by
  induction u generalizing k with
  | nil => simp at h
  | cons hd rest ih =>
      by_cases hh : hd.name = coin
      · exact ⟨[], hd, rest, rfl, hh, by simp, by simp [findAssetId, hh]⟩
      · have h' : ∃ a ∈ rest, a.name = coin := by
          rcases h with ⟨a, ha, hn⟩
          rcases List.mem_cons.mp ha with rfl | hmem
          · exact absurd hn hh
          · exact ⟨a, hmem, hn⟩
        rcases ih (k + 1) h' with ⟨pre, a, post, hu, hn, hpre, hfind⟩
        refine ⟨hd :: pre, a, post, by simp [hu], hn, ?_, ?_⟩
        · intro b hb
          rcases List.mem_cons.mp hb with rfl | hmem
          · exact hh
          · exact hpre b hmem
        · simp only [findAssetId, hh, if_false, hfind, List.length_cons]
          congr 1
          omega

/-- The key of the margin-summary dict cannot start with `"0x"` when every
character is a hex digit, so the strip step leaves it unchanged. -/
theorem stripHexPrefix_of_hex (k : List Char) (h : ∀ c ∈ k, isHexChar c = true) :
    stripHexPrefix k = k := by
  rcases k with _ | ⟨c1, _ | ⟨c2, t⟩⟩
  · simp [stripHexPrefix]
  · simp [stripHexPrefix]
  · rw [stripHexPrefix, if_neg]
    intro heq
    simp only [List.take, List.cons.injEq] at heq
    have hx := h c2 (by simp)
    rw [heq.2.1] at hx
    exact absurd hx (by decide)

/-! ### Claim theorems -/

/-- C1: the order-type classification assigns one distinct label to each of
the three limit variants, but the market variant `{"market": {}}` gets no
label at all: `elif ORDER_CONFIG["order_type"].get("market"):` tests the
truthiness of the empty dict, which is falsy, so no branch fires. -/
theorem orderTypeLabel_market_unlabeled :
    orderTypeLabel marketType = none ∧
    orderTypeLabel limitIocType =
      some "→ IOC: Executes immediately or cancels (requires less margin)" ∧
    orderTypeLabel limitGtcType =
      some "→ GTC: Stays on order book until filled or canceled (requires more margin)" ∧
    orderTypeLabel limitAloType =
      some "→ ALO: Post Only - adds liquidity, gets maker rebate (requires less margin)" :=
  ⟨rfl, rfl, rfl, rfl⟩

/-- C2 counterexample: a truthy meta response whose universe list is empty
makes resolution raise the not-found error, not the configuration error the
claim assigns to an empty universe. -/
theorem resolveAsset_empty_universe :
    resolveAsset (some []) "HYPE" = .error .assetNotFound ∧
    resolveAsset (some []) "HYPE" ≠ .error .configurationError :=
  ⟨rfl, fun h => (nomatch h)⟩

/-- C2 (amended): resolution raises the ConfigurationError exactly when the
meta response itself is absent or falsy, and raises the AssetNotFoundError
exactly when the meta response is present but no universe entry's name
matches the configured symbol (including the empty universe); these are the
only failure modes. -/
theorem resolveAsset_failure_modes (meta : Option (List Asset)) (coin : String) :
    (resolveAsset meta coin = .error .configurationError ↔ meta = none) ∧
    (resolveAsset meta coin = .error .assetNotFound ↔
      ∃ u, meta = some u ∧ ∀ a ∈ u, a.name ≠ coin) := by
  cases meta with
  | none => simp [resolveAsset]
  | some u =>
      simp only [resolveAsset]
      cases hf : findAssetId u coin 0 with
      | none =>
          have hall := (findAssetId_eq_none u coin 0).mp hf
          exact ⟨⟨fun h => (nomatch h), fun h => (nomatch h)⟩,
                 ⟨fun _ => ⟨u, rfl, hall⟩, fun _ => rfl⟩⟩
      | some i =>
          have hne : ¬ ∀ a ∈ u, a.name ≠ coin := by
            intro hall
            have hnone := (findAssetId_eq_none u coin 0).mpr hall
            rw [hf] at hnone
            exact nomatch hnone
          refine ⟨⟨fun h => (nomatch h), fun h => (nomatch h)⟩,
                  ⟨fun h => (nomatch h), ?_⟩⟩
          rintro ⟨u', hu', hall⟩
          cases hu'
          exact absurd hall hne

/-- C4: when at least one universe entry's name equals the configured
symbol, resolution returns the position of the first such entry in sequence
order. -/
theorem resolveAsset_first_match (u : List Asset) (coin : String)
    (h : ∃ a ∈ u, a.name = coin) :
    ∃ pre a post, u = pre ++ a :: post ∧ a.name = coin ∧
      (∀ b ∈ pre, b.name ≠ coin) ∧
      resolveAsset (some u) coin = .ok pre.length := by
  rcases findAssetId_first u coin 0 h with ⟨pre, a, post, hu, hn, hpre, hfind⟩
  exact ⟨pre, a, post, hu, hn, hpre, by simp [resolveAsset, hfind]⟩

/-- C4 witness: in the universe `[BTC, HYPE, HYPE]` the symbol `HYPE`
resolves to the first matching position. -/
theorem resolveAsset_first_match_witness :
    (∃ a ∈ [Asset.mk "BTC", Asset.mk "HYPE", Asset.mk "HYPE"], a.name = "HYPE") ∧
    ∃ pre a post,
      [Asset.mk "BTC", Asset.mk "HYPE", Asset.mk "HYPE"] = pre ++ a :: post ∧
      a.name = "HYPE" ∧ (∀ b ∈ pre, b.name ≠ "HYPE") ∧
      resolveAsset (some [Asset.mk "BTC", Asset.mk "HYPE", Asset.mk "HYPE"]) "HYPE" =
        .ok pre.length :=
  ⟨by decide, resolveAsset_first_match _ "HYPE" (by decide)⟩

/-- C3: credential loading derives the same wallet identity from a
well-formed hex key with and without the `"0x"` prefix, for every
derivation function: both normalize to the same string before the external
`Account.from_key` call. -/
theorem loadWallet_prefix_insensitive (derive : List Char → String)
    (k : List Char) (h : ∀ c ∈ k, isHexChar c = true) :
    loadWallet derive k = loadWallet derive ('0' :: 'x' :: k) := by
  unfold loadWallet
  rw [stripHexPrefix_of_hex k h]
  have hs : stripHexPrefix ('0' :: 'x' :: k) = k := by
    simp [stripHexPrefix]
  rw [hs]

/-- C3 witness: the key `ab12` loads the same wallet as `0xab12`. -/
theorem loadWallet_prefix_insensitive_witness :
    (∀ c ∈ ['a', 'b', '1', '2'], isHexChar c = true) ∧
    loadWallet (fun l => String.mk l) ['a', 'b', '1', '2'] =
      loadWallet (fun l => String.mk l) ('0' :: 'x' :: ['a', 'b', '1', '2']) :=
  ⟨by decide, loadWallet_prefix_insensitive _ _ (by decide)⟩

/-- C5: for non-negative account value and margin used, the free collateral
the Account Inspector computes is exactly their difference. -/
theorem freeCollateral_eq_sub (a m : ℚ) (cms : Option PyNumDict)
    (ha : 0 ≤ a) (hm : 0 ≤ m) :
    (inspectAccount
        ⟨some [("accountValue", a), ("totalMarginUsed", m)], cms⟩).freeCollateral
      = a - m := by
  simp [inspectAccount, dictGetQ, lookupQ]

/-- C5 witness: account value 5 and margin used 2 report free collateral
`5 - 2`. -/
theorem freeCollateral_eq_sub_witness :
    (0 : ℚ) ≤ 5 ∧ (0 : ℚ) ≤ 2 ∧
    (inspectAccount
        ⟨some [("accountValue", 5), ("totalMarginUsed", 2)], none⟩).freeCollateral
      = 5 - 2 :=
  ⟨by norm_num, by norm_num, freeCollateral_eq_sub 5 2 none (by norm_num) (by norm_num)⟩

/-- C6: the margin-mode report is the cross-margin line exactly when the
cross-margin summary is present and non-empty, and the isolated line exactly
when it is absent or the empty dict. -/
theorem marginMode_report (us : UserState) :
    (marginModeLine us = "Margin Mode: CROSS MARGIN" ↔
      ∃ d, us.crossMarginSummary = some d ∧ d ≠ []) ∧
    (marginModeLine us = "Margin Mode: ISOLATED MARGIN (or no positions)" ↔
      (us.crossMarginSummary = none ∨ us.crossMarginSummary = some [])) := by
  obtain ⟨ms, cms⟩ := us
  rcases cms with _ | ⟨_ | ⟨x, rest⟩⟩
  · simp [marginModeLine]
  · simp [marginModeLine]
  · simp [marginModeLine]

/-- C7: an account-inspection failure prints the warning line and does not
abort the run: the abort status is identical to that of a run whose
inspection succeeded with any state. -/
theorem inspection_error_nonfatal (e : String) (us : UserState)
    (meta : Option (List Asset)) (coin : String)
    (ot : List (String × PyVal)) (res : OrderResult) :
    warnLine e ∈ (mainRun (.error e) meta coin ot res).trace ∧
    (mainRun (.error e) meta coin ot res).raised =
      (mainRun (.ok us) meta coin ot res).raised := by
  unfold mainRun
  cases h : resolveAsset meta coin with
  | error err => cases err <;> simp [inspectionLines]
  | ok i => simp [inspectionLines]

/-- C8: when resolution succeeds and the submission result's status is not
`"ok"`, the run completes without raising (exit code zero) and the trace
holds the failure banner and the returned response. -/
theorem rejected_order_exit_zero (insp : Except String UserState)
    (meta : Option (List Asset)) (coin : String) (ot : List (String × PyVal))
    (res : OrderResult) (i : Nat)
    (hres : resolveAsset meta coin = .ok i)
    (hst : ¬ res.status = some "ok") :
    (mainRun insp meta coin ot res).raised = none ∧
    "❌ ORDER FAILED" ∈ (mainRun insp meta coin ot res).trace ∧
    ("Response: " ++ displayResp res.response) ∈ (mainRun insp meta coin ot res).trace := by
  unfold mainRun
  rw [hres]
  simp [submissionLines, hst]

/-- C8 witness: a rejected submission (`status = "err"`) after a successful
resolution completes with no raise and prints the failure lines. -/
theorem rejected_order_exit_zero_witness :
    resolveAsset (some [Asset.mk "HYPE"]) "HYPE" = .ok 0 ∧
    ¬ (OrderResult.mk (some "err") (some (.msg "bad price"))).status = some "ok" ∧
    ((mainRun (.error "down") (some [Asset.mk "HYPE"]) "HYPE" limitIocType
        (OrderResult.mk (some "err") (some (.msg "bad price")))).raised = none ∧
      "❌ ORDER FAILED" ∈ (mainRun (.error "down") (some [Asset.mk "HYPE"]) "HYPE"
        limitIocType (OrderResult.mk (some "err") (some (.msg "bad price")))).trace ∧
      ("Response: " ++ displayResp (some (.msg "bad price"))) ∈
        (mainRun (.error "down") (some [Asset.mk "HYPE"]) "HYPE" limitIocType
          (OrderResult.mk (some "err") (some (.msg "bad price")))).trace) :=
  ⟨rfl, by decide,
    rejected_order_exit_zero (.error "down") (some [Asset.mk "HYPE"]) "HYPE"
      limitIocType (OrderResult.mk (some "err") (some (.msg "bad price"))) 0
      rfl (by decide)⟩

/-- C10: an absent margin summary and a completely empty one both report
account value, margin used and free collateral all zero, and each missing
field defaults to zero on its own. -/
theorem missing_summary_defaults_zero (cms : Option PyNumDict) (a m : ℚ) :
    inspectAccount ⟨none, cms⟩ = ⟨0, 0, 0⟩ ∧
    inspectAccount ⟨some [], cms⟩ = ⟨0, 0, 0⟩ ∧
    (inspectAccount ⟨some [("totalMarginUsed", m)], cms⟩).accountValue = 0 ∧
    (inspectAccount ⟨some [("accountValue", a)], cms⟩).marginUsed = 0 := by
  refine ⟨?_, ?_, ?_, ?_⟩ <;> simp [inspectAccount, dictGetQ, lookupQ]

end BloomTest
